import Mathlib

/-!
Verification development for the Subscription_RPD repository
(`advanced_rpd.py`): a shallow embedding of the retention-curve fitting
and revenue-projection engine, together with theorems settling the
specification claims.

Modelling conventions:
* `pd.Timestamp` values are day numbers (days since 1970-01-01, `ℤ`);
  the Gregorian calendar conversions follow the standard civil-calendar
  algorithms and are executable.
* Machine floats are idealised as `ℝ`; user-entered inputs (retention
  rates, revenue-share weights) as `ℚ`.  The one place where IEEE
  special values are observable — division by a zero user count in the
  aggregator, where numpy returns `inf`/`nan` with only a warning — is
  modelled explicitly by the `PyVal` type.
* `scipy.optimize.curve_fit` is an external library; it is abstracted
  as a `CurveFitFn` argument.  Its documented input check
  (`check_finite=True` raises on `nan`/`inf` in `ydata`, which here is
  `np.log(rates)` and is non-finite exactly when some rate is `≤ 0`)
  and its non-convergence failure are modelled as `Except` errors.
* Python `dict` lookups that can raise `KeyError`, and pandas label
  selections on missing columns, are modelled with `Option`/`Except`
  (`PErr.keyError`); fitting failures with `PErr.fitError`.
-/

open scoped Classical

set_option maxHeartbeats 1000000

/-! ## Calendar arithmetic (day numbers ↔ Gregorian civil dates) -/

/-- Day number (days since 1970-01-01) of a civil date, by the standard
civil-from-days algorithm.  Mirrors what `pd.Timestamp` arithmetic does
in `calculate_yearly_rpd`. -/
def daysFromCivil (y m d : ℤ) : ℤ :=
  let y2 := if m ≤ 2 then y - 1 else y
  let era := Int.ediv y2 400
  let yoe := y2 - era * 400
  let mp := if 2 < m then m - 3 else m + 9
  let doy := Int.ediv (153 * mp + 2) 5 + d - 1
  let doe := yoe * 365 + Int.ediv yoe 4 - Int.ediv yoe 100 + doy
  era * 146097 + doe - 719468

/-- Civil date (year, month, day) of a day number. -/
def civilFromDays (z : ℤ) : ℤ × ℤ × ℤ :=
  let z2 := z + 719468
  let era := Int.ediv z2 146097
  let doe := z2 - era * 146097
  let yoe := Int.ediv (doe - Int.ediv doe 1460 + Int.ediv doe 36524 - Int.ediv doe 146096) 365
  let y := yoe + era * 400
  let doy := doe - (365 * yoe + Int.ediv yoe 4 - Int.ediv yoe 100)
  let mp := Int.ediv (5 * doy + 2) 153
  let d := doy - Int.ediv (153 * mp + 2) 5 + 1
  let m := if mp < 10 then mp + 3 else mp - 9
  (if m ≤ 2 then y + 1 else y, m, d)

/-- The calendar year an activation date falls in (`idx.year` /
`df.index.year` in the source). -/
def yearOfDay (z : ℤ) : ℤ := (civilFromDays z).1

/-- Day number of December 31 of year `y`
(`pd.Timestamp(f'{year}-12-31')` in the source). -/
def dec31 (y : ℤ) : ℤ := daysFromCivil y 12 31

/-- `pd.date_range(start, end)` (inclusive on both ends, empty when
`e < s`), and Python's `range(s, e+1)` over years, as a list of
consecutive integers. -/
def rangeDays (s e : ℤ) : List ℤ :=
  (List.range (e - s + 1).toNat).map (fun (i : ℕ) => s + (i : ℤ))

/-! ## Data model -/

/-- The four payment-period types. -/
inductive PeriodType
  | week
  | month
  | quarter
  | year
deriving DecidableEq

/-- Cycle length in days of each period type — the
`{'week': (7, 7), 'month': (30, 30), 'quarter': (90, 90),
'year': (365, 365)}` table of `create_revenue_df` (the two components
of each pair are equal, so one function serves as both `period_days`
and `divisor`). -/
def periodDays : PeriodType → ℕ
  | .week => 7
  | .month => 30
  | .quarter => 90
  | .year => 365

/-- The iteration order of the period dictionary in
`create_revenue_df` and of the fitting loop. -/
def periodList : List PeriodType := [.week, .month, .quarter, .year]

/-- One year's entry of `yearly_params`: a Python dict from period type
to `(retention-rate list, revenue share)`; a missing key is `none`
(dict access raises `KeyError`). -/
def YearInput : Type := PeriodType → Option (List ℚ × ℚ)

/-- One year's entry of the fitted `year_params` dict:
period type ↦ `(a, b, revenue_prop)`. -/
def FittedYear : Type := PeriodType → ℝ × ℝ × ℚ

/-- Error type: `keyError` models a Python `KeyError` (or a pandas
missing-label lookup), `fitError` a `ValueError`/`RuntimeError`
escaping `scipy.optimize.curve_fit`. -/
inductive PErr
  | keyError
  | fitError
deriving DecidableEq

/-- Abstraction of `scipy.optimize.curve_fit` applied to
`log_power_function`: receives the checkpoint list and the
(log-transformed) observations, returns fitted `(a, b)` or fails
(non-convergence). -/
def CurveFitFn : Type := List ℚ → List ℝ → Except Unit (ℝ × ℝ)

/-- Python dict lookup on an association list. -/
def dlookup {α : Type} (y : ℤ) : List (ℤ × α) → Option α
  | [] => none
  | p :: rest => if y = p.1 then some p.2 else dlookup y rest

/-- The DataFrame built by `create_revenue_df`: activation dates as
index, a constant `激活人数` column, and day-offset revenue columns
`day0收入 .. day(numDayCols-1)收入`.  A cell holds `none` where the
source stores `None`. -/
structure RevDF where
  dates : List ℤ
  activeUsers : ℕ
  numDayCols : ℕ
  cell : ℤ → ℕ → Option ℝ

/-- A numpy float result: either an ordinary real, `inf`, `-inf`, or
`nan`.  Needed because the aggregator can divide by a zero user count,
which numpy turns into `inf`/`nan` with only a `RuntimeWarning`. -/
inductive PyVal
  | num (x : ℝ)
  | inf
  | ninf
  | nan

/-- IEEE-style division as numpy performs it on finite operands and
the special values reachable in this program (signed zeros do not
arise: user counts are non-negative integers). -/
noncomputable def pyDivVal : PyVal → PyVal → PyVal
  | .nan, _ => .nan
  | _, .nan => .nan
  | .num x, .num y =>
      if y = 0 then (if 0 < x then .inf else if x < 0 then .ninf else .nan)
      else .num (x / y)
  | .num _, .inf => .num 0
  | .num _, .ninf => .num 0
  | .inf, .num y => if y < 0 then .ninf else .inf
  | .ninf, .num y => if y < 0 then .inf else .ninf
  | .inf, .inf => .nan
  | .inf, .ninf => .nan
  | .ninf, .inf => .nan
  | .ninf, .ninf => .nan

/-- `(v - 1) * 100` in numpy float semantics (finite shift and scale
preserve `inf`/`-inf`/`nan`). -/
noncomputable def pyValSub1Mul100 : PyVal → PyVal
  | .num x => .num ((x - 1) * 100)
  | .inf => .inf
  | .ninf => .ninf
  | .nan => .nan

/-- `growth_rate = (rpd_year / results[year-1]['RPD'] - 1) * 100`. -/
noncomputable def pyGrowth (rpdY prev : PyVal) : PyVal :=
  pyValSub1Mul100 (pyDivVal rpdY prev)

/-- One entry of the `results` dict of `calculate_yearly_rpd`:
`{'RPD': ..., 'Growth_Rate': ...}` keyed by year (the key is carried
in the record; the dict preserves ascending insertion order, so the
whole output is a list). -/
structure YearResult where
  year : ℤ
  RPD : PyVal
  growth : Option PyVal

/-! ## Curve fitter (`log_power_function`, `fit_revenue_parameters`,
`RevenueCalculator.fit_period_parameters`,
`RevenueCalculator.calculate_retention_rate`) -/

/-- `log_power_function(x, a, b) = np.log(a * np.power(x, b))`. -/
noncomputable def log_power_function (x a b : ℝ) : ℝ :=
  Real.log (a * x ^ b)

/-- `fit_revenue_parameters(days, retention_rates)`:
all-zero rates return the `(0, 0)` sentinel without fitting; otherwise
the rates are log-transformed and handed to `curve_fit`.  A rate `≤ 0`
makes `np.log` produce `-inf`/`nan`, which `curve_fit`
(`check_finite=True`, the default) rejects with a `ValueError`; a
non-convergent optimisation raises `RuntimeError`.  Both surface as
`PErr.fitError`. -/
noncomputable def fit_revenue_parameters (cf : CurveFitFn)
    (days : List ℚ) (retention_rates : List ℚ) : Except PErr (ℝ × ℝ) :=
  if retention_rates.all (fun r => r = 0) then .ok (0, 0)
  else if retention_rates.any (fun r => r ≤ 0) then .error .fitError
  else
    match cf days (retention_rates.map (fun r => Real.log (r : ℝ))) with
    | .ok ab => .ok ab
    | .error _ => .error .fitError

/-- The fixed observation checkpoints of `RevenueCalculator.__init__`
(in period units). -/
def week_points : List ℚ := [1, 3, 7]

/-- Month checkpoints. -/
def month_points : List ℚ := [1, 3, 7]

/-- Quarter checkpoints. -/
def quarter_points : List ℚ := [1, 3, 4]

/-- Year checkpoints. -/
def year_points : List ℚ := [1, 2, 3]

/-- `RevenueCalculator.fit_period_parameters`. -/
noncomputable def fit_period_parameters (cf : CurveFitFn)
    (retention_rates : List ℚ) (period_type : PeriodType) : Except PErr (ℝ × ℝ) :=
  let periods :=
    match period_type with
    | .week => week_points
    | .month => month_points
    | .quarter => quarter_points
    | .year => year_points
  fit_revenue_parameters cf periods retention_rates

/-- `RevenueCalculator.calculate_retention_rate(days, a, b, period_type)`:
the `(0,0)` sentinel yields 0; otherwise the day offset is converted to
period units and the fitted curve evaluated,
`np.exp(log_power_function(periods, a, b))`. -/
noncomputable def calculate_retention_rate (days : ℕ) (a b : ℝ)
    (period_type : PeriodType) : ℝ :=
  if a = 0 ∧ b = 0 then 0
  else
    let periods : ℝ :=
      match period_type with
      | .week => (days : ℝ) / 7
      | .month => (days : ℝ) / 30
      | .quarter => (days : ℝ) / 90
      | .year => (days : ℝ) / 365
    Real.exp (log_power_function periods a b)

/-- Spec-side evaluator, transcribed from the specification's Curve
Fitter contract (§4.1): return 0 for the `(0,0)` inactive sentinel,
otherwise `exp(ln a + b·ln p)` at a period-unit offset `p`.  Declared
separately from `calculate_retention_rate` so the implementation can be
compared against the spec's formula. -/
noncomputable def specEvaluate (p a b : ℝ) : ℝ :=
  if a = 0 ∧ b = 0 then 0 else Real.exp (Real.log a + b * Real.log p)

/-! ## Revenue projector (`RevenueCalculator.create_revenue_df`) -/

/-- Fitting of one `(year, period)` entry inside the parameter loop of
`create_revenue_df`: `retention_rates, revenue_prop = params[period]`
(a `KeyError` when the period key is absent) followed by
`fit_period_parameters`. -/
noncomputable def fitPeriodEntry (cf : CurveFitFn) (params : YearInput)
    (pt : PeriodType) : Except PErr (ℝ × ℝ × ℚ) :=
  match params pt with
  | none => .error .keyError
  | some pr => do
      let ab ← fit_period_parameters cf pr.1 pt
      .ok (ab.1, ab.2, pr.2)

/-- One iteration of the per-year fitting loop: periods processed in
the fixed order week, month, quarter, year. -/
noncomputable def fitYear (cf : CurveFitFn) (params : YearInput) :
    Except PErr FittedYear := do
  let w ← fitPeriodEntry cf params .week
  let mo ← fitPeriodEntry cf params .month
  let q ← fitPeriodEntry cf params .quarter
  let yr ← fitPeriodEntry cf params .year
  .ok (fun pt =>
    match pt with
    | .week => w
    | .month => mo
    | .quarter => q
    | .year => yr)

/-- The whole fitting loop over `yearly_params.items()`, building the
`year_params` dict in insertion order. -/
noncomputable def fitYears (cf : CurveFitFn) :
    List (ℤ × YearInput) → Except PErr (List (ℤ × FittedYear))
  | [] => .ok []
  | p :: rest => do
      let f ← fitYear cf p.2
      let r ← fitYears cf rest
      .ok ((p.1, f) :: r)

/-- Revenue of one cell for a day offset `day > 0`: fold over the four
period types; a period contributes only when `day % period_days == 0`,
in which case `year_params[year][period]` is looked up (`KeyError` if
the year is absent) and
`base_revenue * revenue_prop * calculate_retention_rate(...)` added. -/
noncomputable def addPeriod (yp : ℤ → Option FittedYear) (year : ℤ)
    (day : ℕ) (acc : ℝ) (pt : PeriodType) : Except PErr ℝ :=
  if day % periodDays pt = 0 then
    match yp year with
    | none => .error .keyError
    | some f =>
        let a := (f pt).1
        let b := (f pt).2.1
        let revenue_prop := (f pt).2.2
        let period_base_revenue : ℝ := 1000 * (revenue_prop : ℝ)
        .ok (acc + period_base_revenue * calculate_retention_rate day a b pt)
  else .ok acc

/-- `total_revenue` accumulation of one cell (`day > 0`). -/
noncomputable def cellRevenue (yp : ℤ → Option FittedYear) (year : ℤ)
    (day : ℕ) : Except PErr ℝ :=
  periodList.foldlM (addPeriod yp year day) 0

/-- One cell of the revenue table: the source guard
`idx + day < len(dates)` is `d - s + day < e - s + 1` for the
activation date `d` at index `idx = d - s`; outside it the cell is
`None`.  `day == 0` yields the base revenue 1000 directly. -/
noncomputable def cellExc (yp : ℤ → Option FittedYear) (s e d : ℤ)
    (day : ℕ) : Except PErr (Option ℝ) :=
  if d - s + (day : ℤ) < e - s + 1 then
    if day = 0 then .ok (some 1000)
    else (cellRevenue yp (yearOfDay d) day).map some
  else .ok none

/-- The DataFrame assembled from the per-cell function. -/
noncomputable def mkDf (au : ℕ) (s e : ℤ) (yp : ℤ → Option FittedYear) : RevDF :=
  { dates := rangeDays s e
    activeUsers := au
    numDayCols := (e - s + 1).toNat
    cell := fun d day =>
      match cellExc yp s e d day with
      | .ok v => v
      | .error _ => none }

/-- `RevenueCalculator.create_revenue_df(active_users, start_date,
end_date, yearly_params)`: fit all supplied years, then materialise
every cell (column-major, as the source loops `day` outer and dates
inner), propagating the first exception. -/
noncomputable def create_revenue_df (cf : CurveFitFn) (active_users : ℕ)
    (s e : ℤ) (yearly_params : List (ℤ × YearInput)) : Except PErr RevDF := do
  let fitted ← fitYears cf yearly_params
  (List.range (e - s + 1).toNat).forM
    (fun day => (rangeDays s e).forM
      (fun d => (cellExc (fun y => dlookup y fitted) s e d day).map (fun _ => ())))
  .ok (mkDf active_users s e (fun y => dlookup y fitted))

/-! ## Yearly aggregator (`calculate_yearly_rpd`) -/

/-- `df[df.index.year <= year]`, the cumulative row mask. -/
def rowsFor (df : RevDF) (year : ℤ) : List ℤ :=
  df.dates.filter (fun d => yearOfDay d ≤ year)

/-- `row[revenue_cols].sum()` for one activation date: pandas sums the
day-offset columns `0 .. days_until_year_end`, skipping `None`. -/
noncomputable def rowSum (df : RevDF) (year d : ℤ) : ℝ :=
  ((List.range (dec31 year - d + 1).toNat).map
    (fun i => (df.cell d i).getD 0)).sum

/-- Cumulative revenue through year-end, as the claims state it. -/
noncomputable def revFor (df : RevDF) (year : ℤ) : ℝ :=
  ((rowsFor df year).map (rowSum df year)).sum

/-- Cumulative activated users through the year: the sum of the
`激活人数` column over the masked rows. -/
def usersFor (df : RevDF) (year : ℤ) : ℕ :=
  ((rowsFor df year).map (fun _ => df.activeUsers)).sum

/-- `RPD(Y)` as the source computes it (numpy float division). -/
noncomputable def rpdFor (df : RevDF) (year : ℤ) : PyVal :=
  pyDivVal (.num (revFor df year)) (.num ((usersFor df year : ℝ)))

/-- One row's contribution inside the revenue accumulation of the
year loop: `days_until_year_end = (Dec-31-of-Y - idx).days`, then
`row[[f'day{i}收入' for i in range(0, days_until_year_end + 1)]].sum()`.
pandas raises `KeyError` when a requested column label does not exist,
i.e. when `days_until_year_end + 1` exceeds the column count; `None`
cells are skipped (summed as 0). -/
noncomputable def rowStep (df : RevDF) (year : ℤ) (racc : ℝ) (d : ℤ) :
    Except PErr ℝ :=
  let days_until_year_end := dec31 year - d
  if (df.numDayCols : ℤ) < days_until_year_end + 1 then
    Except.error PErr.keyError
  else
    Except.ok (racc + ((List.range (days_until_year_end + 1).toNat).map
      (fun i => (df.cell d i).getD 0)).sum)

/-- One iteration of the year loop of `calculate_yearly_rpd`:
select the cumulative rows, sum users, sum each row's revenue columns
`day0 .. days_until_year_end` (a missing column label raises
`KeyError`), divide, and attach the growth rate against the previous
year's entry for `year > start_year`. -/
noncomputable def aggYear (df : RevDF) (start_year : ℤ)
    (acc : List YearResult) (year : ℤ) : Except PErr (List YearResult) := do
  let rows := rowsFor df year
  let users : ℕ := (rows.map (fun _ => df.activeUsers)).sum
  let rev ← rows.foldlM (rowStep df year) (0 : ℝ)
  let rpd_year := pyDivVal (.num rev) (.num (users : ℝ))
  if start_year < year then
    match acc.find? (fun r => r.year = year - 1) with
    | none => Except.error PErr.keyError
    | some prev =>
        Except.ok (acc ++ [{ year := year, RPD := rpd_year,
                             growth := some (pyGrowth rpd_year prev.RPD) }])
  else
    Except.ok (acc ++ [{ year := year, RPD := rpd_year, growth := none }])

/-- `calculate_yearly_rpd(df, start_year, end_year)`. -/
noncomputable def calculate_yearly_rpd (df : RevDF) (start_year end_year : ℤ) :
    Except PErr (List YearResult) :=
  (rangeDays start_year end_year).foldlM (aggYear df start_year) []

/-- The closed form of the record the year loop appends for year `Y`. -/
noncomputable def recFor (df : RevDF) (start_year Y : ℤ) : YearResult :=
  { year := Y
    RPD := rpdFor df Y
    growth :=
      if start_year < Y then some (pyGrowth (rpdFor df Y) (rpdFor df (Y - 1)))
      else none }

/-! ## Concrete inputs used by witnesses and counterexamples -/

/-- A concrete optimiser stub: always converges to `(a, b) = (1, -1)`. -/
def cfOne : CurveFitFn := fun _ _ => Except.ok (1, -1)

/-- A concrete optimiser stub that never converges. -/
def cfDiverge : CurveFitFn := fun _ _ => Except.error ()

/-- Day number of 2024-01-01 (equals 19723). -/
def jan1of2024 : ℤ := daysFromCivil 2024 1 1

/-- Day number of 2024-12-31 (equals 20088). -/
def dec31of2024 : ℤ := daysFromCivil 2024 12 31

/-- A well-formed `yearly_params` input covering 2024 with positive
rates and weight 1 for every period type (integer literals keep the
input kernel-reducible). -/
def paramsStd : List (ℤ × YearInput) :=
  [(2024, fun _ => some ([1, 1, 1], 1))]

/-- The fitted dict `fitYears cfOne paramsStd` produces. -/
def FStd : FittedYear := fun pt =>
  match pt with
  | .week => ((1 : ℝ), (-1 : ℝ), (1 : ℚ))
  | .month => ((1 : ℝ), (-1 : ℝ), (1 : ℚ))
  | .quarter => ((1 : ℝ), (-1 : ℝ), (1 : ℚ))
  | .year => ((1 : ℝ), (-1 : ℝ), (1 : ℚ))

/-- The table `create_revenue_df` builds for a single activation date
2024-12-31 with a zero daily activation count and an empty parameter
table — the failing input for the division-by-zero-users claim. -/
noncomputable def dfZero : RevDF :=
  mkDf 0 dec31of2024 dec31of2024
    (fun y => dlookup y ([] : List (ℤ × FittedYear)))

/-! ## Basic lemmas about the embedding's monadic plumbing -/

/-- Bind on a successful `Except` computation. -/
theorem exc_ok_bind {ε α β : Type} (a : α) (f : α → Except ε β) :
    (Except.ok a >>= f : Except ε β) = f a := rfl

/-- Bind on a failed `Except` computation. -/
theorem exc_error_bind {ε α β : Type} (err : ε) (f : α → Except ε β) :
    (Except.error err >>= f : Except ε β) = .error err := rfl

/-- Map on a successful `Except` computation. -/
theorem exc_ok_map {ε α β : Type} (a : α) (f : α → β) :
    ((Except.ok a : Except ε α).map f) = .ok (f a) := rfl

/-- Map on a failed `Except` computation. -/
theorem exc_error_map {ε α β : Type} (err : ε) (f : α → β) :
    ((Except.error err : Except ε α).map f) = .error err := rfl

/-- `List.forM` unfolding on a cons cell. -/
theorem forM_cons_eq {ε α : Type} (f : α → Except ε Unit) (a : α) (t : List α) :
    (a :: t).forM f = (f a >>= fun _ => t.forM f) := rfl

/-- Membership in a consecutive integer range. -/
theorem mem_rangeDays {s e d : ℤ} : d ∈ rangeDays s e ↔ s ≤ d ∧ d ≤ e := by
  simp only [rangeDays, List.mem_map, List.mem_range]
  constructor
  · rintro ⟨i, hi, rfl⟩
    omega
  · rintro ⟨h1, h2⟩
    exact ⟨(d - s).toNat, by omega, by omega⟩

/-- Peel the first day off a non-empty range. -/
theorem rangeDays_cons {s e : ℤ} (h : s ≤ e) :
    rangeDays s e = s :: rangeDays (s + 1) e := by
  unfold rangeDays
  have h1 : (e - s + 1).toNat = (e - (s + 1) + 1).toNat + 1 := by omega
  rw [h1, List.range_succ_eq_map, List.map_cons, List.map_map]
  have hf : ((fun (i : ℕ) => s + (i : ℤ)) ∘ Nat.succ) = (fun (i : ℕ) => (s + 1) + (i : ℤ)) := by
    funext i
    simp only [Function.comp_apply]
    push_cast
    ring
  rw [hf]
  norm_num

/-- Peel the last day off a non-empty range. -/
theorem rangeDays_snoc {s e : ℤ} (h : s ≤ e) :
    rangeDays s e = rangeDays s (e - 1) ++ [e] := by
  unfold rangeDays
  have h1 : (e - s + 1).toNat = (e - 1 - s + 1).toNat + 1 := by omega
  rw [h1, List.range_succ, List.map_append, List.map_cons, List.map_nil]
  have h2 : s + ((e - 1 - s + 1).toNat : ℤ) = e := by omega
  rw [h2]

/-- A successful `forM` over `Except` means every element succeeded. -/
theorem forM_ok_mem {ε α : Type} {l : List α} {f : α → Except ε Unit}
    (h : l.forM f = .ok ()) : ∀ x ∈ l, f x = .ok () := by
  induction l with
  | nil => simp
  | cons a t ih =>
    rw [forM_cons_eq] at h
    cases hfa : f a with
    | error err =>
      rw [hfa, exc_error_bind] at h
      exact absurd h (by simp)
    | ok u =>
      rw [hfa, exc_ok_bind] at h
      cases u
      intro x hx
      rcases List.mem_cons.mp hx with rfl | hx2
      · exact hfa
      · exact ih h x hx2

/-- If every element succeeds, `forM` over `Except` succeeds. -/
theorem forM_ok_all {ε α : Type} {l : List α} {f : α → Except ε Unit}
    (h : ∀ x ∈ l, f x = .ok ()) : l.forM f = .ok () := by
  induction l with
  | nil => rfl
  | cons a t ih =>
    rw [forM_cons_eq, h a (List.mem_cons_self a t), exc_ok_bind]
    exact ih (fun x hx => h x (List.mem_cons_of_mem a hx))

/-! ## Inversion lemmas for the fitting pipeline -/

/-- The fitter never raises a `KeyError` itself. -/
theorem fit_revenue_parameters_ne_keyError (cf : CurveFitFn)
    (days rates : List ℚ) :
    fit_revenue_parameters cf days rates ≠ .error .keyError := by
  unfold fit_revenue_parameters
  split
  · simp
  · split
    · simp
    · split
      · simp
      · simp

/-- A successful period-entry fit means the period key was present. -/
theorem fitPeriodEntry_ok_isSome {cf : CurveFitFn} {params : YearInput}
    {pt : PeriodType} {x : ℝ × ℝ × ℚ}
    (h : fitPeriodEntry cf params pt = .ok x) : (params pt).isSome := by
  unfold fitPeriodEntry at h
  cases hp : params pt with
  | none => rw [hp] at h; exact absurd h (by simp)
  | some pr => simp [hp]

/-- With the period key present, a period-entry fit can only fail as a
fitting error. -/
theorem fitPeriodEntry_ne_keyError {cf : CurveFitFn} {params : YearInput}
    {pt : PeriodType} (h : (params pt).isSome) :
    fitPeriodEntry cf params pt ≠ .error .keyError := by
  unfold fitPeriodEntry
  cases hp : params pt with
  | none => rw [hp] at h; simp at h
  | some pr =>
    dsimp only
    cases hf : fit_period_parameters cf pr.1 pt with
    | error err =>
      rw [exc_error_bind]
      intro hc
      have he : err = PErr.keyError := by injection hc
      have hne : fit_period_parameters cf pr.1 pt ≠ .error .keyError := by
        unfold fit_period_parameters
        exact fit_revenue_parameters_ne_keyError cf _ _
      exact hne (he ▸ hf)
    | ok ab => rw [exc_ok_bind]; simp

/-- A fitted year has every period key present in its input. -/
theorem fitYear_ok_isSome {cf : CurveFitFn} {params : YearInput}
    {f : FittedYear} (h : fitYear cf params = .ok f) :
    ∀ pt, (params pt).isSome := by
  unfold fitYear at h
  cases h1 : fitPeriodEntry cf params .week with
  | error err => rw [h1, exc_error_bind] at h; exact absurd h (by simp)
  | ok w =>
  rw [h1, exc_ok_bind] at h
  cases h2 : fitPeriodEntry cf params .month with
  | error err => rw [h2, exc_error_bind] at h; exact absurd h (by simp)
  | ok mo =>
  rw [h2, exc_ok_bind] at h
  cases h3 : fitPeriodEntry cf params .quarter with
  | error err => rw [h3, exc_error_bind] at h; exact absurd h (by simp)
  | ok q =>
  rw [h3, exc_ok_bind] at h
  cases h4 : fitPeriodEntry cf params .year with
  | error err => rw [h4, exc_error_bind] at h; exact absurd h (by simp)
  | ok yr =>
  intro pt
  cases pt
  · exact fitPeriodEntry_ok_isSome h1
  · exact fitPeriodEntry_ok_isSome h2
  · exact fitPeriodEntry_ok_isSome h3
  · exact fitPeriodEntry_ok_isSome h4

/-- With all four period keys present, fitting a year can only fail as
a fitting error. -/
theorem fitYear_ne_keyError {cf : CurveFitFn} {params : YearInput}
    (h : ∀ pt, (params pt).isSome) :
    fitYear cf params ≠ .error .keyError := by
  unfold fitYear
  cases h1 : fitPeriodEntry cf params .week with
  | error err =>
    rw [exc_error_bind]
    intro hc
    have : err = PErr.keyError := by injection hc
    exact fitPeriodEntry_ne_keyError (h .week) (this ▸ h1)
  | ok w =>
  rw [exc_ok_bind]
  cases h2 : fitPeriodEntry cf params .month with
  | error err =>
    rw [exc_error_bind]
    intro hc
    have : err = PErr.keyError := by injection hc
    exact fitPeriodEntry_ne_keyError (h .month) (this ▸ h2)
  | ok mo =>
  rw [exc_ok_bind]
  cases h3 : fitPeriodEntry cf params .quarter with
  | error err =>
    rw [exc_error_bind]
    intro hc
    have : err = PErr.keyError := by injection hc
    exact fitPeriodEntry_ne_keyError (h .quarter) (this ▸ h3)
  | ok q =>
  rw [exc_ok_bind]
  cases h4 : fitPeriodEntry cf params .year with
  | error err =>
    rw [exc_error_bind]
    intro hc
    have : err = PErr.keyError := by injection hc
    exact fitPeriodEntry_ne_keyError (h .year) (this ▸ h4)
  | ok yr =>
    rw [exc_ok_bind]
    simp

/-- A successful fitting loop means every supplied year entry had all
four period keys. -/
theorem fitYears_ok_entries {cf : CurveFitFn} {yps : List (ℤ × YearInput)}
    {fitted : List (ℤ × FittedYear)} (h : fitYears cf yps = .ok fitted) :
    ∀ p ∈ yps, ∀ pt, (p.2 pt).isSome := by
  induction yps generalizing fitted with
  | nil => simp
  | cons p t ih =>
    rw [fitYears] at h
    cases h1 : fitYear cf p.2 with
    | error err => rw [h1, exc_error_bind] at h; exact absurd h (by simp)
    | ok f =>
    rw [h1, exc_ok_bind] at h
    cases h2 : fitYears cf t with
    | error err => rw [h2, exc_error_bind] at h; exact absurd h (by simp)
    | ok r =>
    rw [h2, exc_ok_bind] at h
    intro q hq
    rcases List.mem_cons.mp hq with rfl | hq2
    · exact fitYear_ok_isSome h1
    · exact ih h2 q hq2

/-- The fitted dict has exactly the keys of the input dict. -/
theorem fitYears_ok_lookup {cf : CurveFitFn} {yps : List (ℤ × YearInput)}
    {fitted : List (ℤ × FittedYear)} (h : fitYears cf yps = .ok fitted) :
    ∀ y : ℤ, (dlookup y fitted).isSome ↔ (dlookup y yps).isSome := by
  induction yps generalizing fitted with
  | nil =>
    rw [fitYears] at h
    have : fitted = [] := by injection h with h2; exact h2.symm
    subst this
    intro y
    simp [dlookup]
  | cons p t ih =>
    rw [fitYears] at h
    cases h1 : fitYear cf p.2 with
    | error err => rw [h1, exc_error_bind] at h; exact absurd h (by simp)
    | ok f =>
    rw [h1, exc_ok_bind] at h
    cases h2 : fitYears cf t with
    | error err => rw [h2, exc_error_bind] at h; exact absurd h (by simp)
    | ok r =>
    rw [h2, exc_ok_bind] at h
    have : fitted = (p.1, f) :: r := by injection h with h3; exact h3.symm
    subst this
    intro y
    by_cases hy : y = p.1
    · simp [dlookup, hy]
    · simp only [dlookup, if_neg hy]
      exact ih h2 y

/-- With all period keys present everywhere, the fitting loop can only
fail as a fitting error. -/
theorem fitYears_ne_keyError {cf : CurveFitFn} {yps : List (ℤ × YearInput)}
    (h : ∀ p ∈ yps, ∀ pt, (p.2 pt).isSome) :
    fitYears cf yps ≠ .error .keyError := by
  induction yps with
  | nil => rw [fitYears]; simp
  | cons p t ih =>
    rw [fitYears]
    cases h1 : fitYear cf p.2 with
    | error err =>
      rw [exc_error_bind]
      intro hc
      have : err = PErr.keyError := by injection hc
      exact fitYear_ne_keyError (h p (List.mem_cons_self p t)) (this ▸ h1)
    | ok f =>
    rw [exc_ok_bind]
    cases h2 : fitYears cf t with
    | error err =>
      rw [exc_error_bind]
      intro hc
      have : err = PErr.keyError := by injection hc
      exact ih (fun q hq => h q (List.mem_cons_of_mem p hq)) (this ▸ h2)
    | ok r =>
      rw [exc_ok_bind]
      simp

/-! ## Inversion lemmas for `create_revenue_df` -/

/-- Characterisation of a successful `create_revenue_df` run. -/
theorem create_ok_elim {cf : CurveFitFn} {au : ℕ} {s e : ℤ}
    {yps : List (ℤ × YearInput)} {df : RevDF}
    (h : create_revenue_df cf au s e yps = .ok df) :
    ∃ fitted, fitYears cf yps = .ok fitted ∧
      ((List.range (e - s + 1).toNat).forM
        (fun day => (rangeDays s e).forM
          (fun d => (cellExc (fun y => dlookup y fitted) s e d day).map
            (fun _ => ())))) = .ok () ∧
      df = mkDf au s e (fun y => dlookup y fitted) := by
  unfold create_revenue_df at h
  cases h1 : fitYears cf yps with
  | error err => rw [h1, exc_error_bind] at h; exact absurd h (by simp)
  | ok fitted =>
  rw [h1, exc_ok_bind] at h
  refine ⟨fitted, rfl, ?_⟩
  cases h2 : ((List.range (e - s + 1).toNat).forM
      (fun day => (rangeDays s e).forM
        (fun d => (cellExc (fun y => dlookup y fitted) s e d day).map
          (fun _ => ())))) with
  | error err => rw [h2, exc_error_bind] at h; exact absurd h (by simp)
  | ok u =>
    cases u
    rw [h2, exc_ok_bind] at h
    exact ⟨rfl, by injection h with h3; exact h3.symm⟩

/-! ## Cell-level lemmas -/

/-- Unfolding of the evaluator off the sentinel. -/
theorem calc_retention_unfold (day : ℕ) (a b : ℝ) (pt : PeriodType)
    (hsent : ¬ (a = 0 ∧ b = 0)) :
    calculate_retention_rate day a b pt =
      Real.exp (log_power_function ((day : ℝ) / ((periodDays pt : ℕ) : ℝ)) a b) := by
  unfold calculate_retention_rate
  rw [if_neg hsent]
  cases pt <;> simp [periodDays]

/-- `log(a·p^b)` coincides with `log a + b·log p` for nonzero `a` and
positive `p` (recalling that `Real.log` of a negative number is the log
of its absolute value). -/
theorem exp_log_pow_eq (a b p : ℝ) (ha : a ≠ 0) (hp : 0 < p) :
    Real.exp (Real.log (a * p ^ b)) = Real.exp (Real.log a + b * Real.log p) := by
  rw [Real.log_mul ha (ne_of_gt (Real.rpow_pos_of_pos hp b)), Real.log_rpow hp]

/-- Under regular parameters (nonzero `a`, or the `(0,0)` sentinel),
the implementation's evaluator agrees with the specification's
`exp(ln a + b·ln p)` contract at period-unit offset `p = day / cycle`. -/
theorem calc_retention_eq_spec (day : ℕ) (a b : ℝ) (pt : PeriodType)
    (hday : 0 < day) (hreg : a ≠ 0 ∨ (a = 0 ∧ b = 0)) :
    calculate_retention_rate day a b pt =
      specEvaluate ((day : ℝ) / ((periodDays pt : ℕ) : ℝ)) a b := by
  rcases hreg with ha | ⟨ha, hb⟩
  · have hsent : ¬ (a = 0 ∧ b = 0) := fun hc => ha hc.1
    have hp : (0 : ℝ) < (day : ℝ) / ((periodDays pt : ℕ) : ℝ) := by
      apply div_pos
      · exact_mod_cast hday
      · cases pt <;> norm_num [periodDays]
    rw [calc_retention_unfold day a b pt hsent]
    unfold specEvaluate log_power_function
    rw [if_neg hsent]
    exact exp_log_pow_eq a b _ ha hp
  · subst ha
    subst hb
    unfold calculate_retention_rate specEvaluate
    rw [if_pos ⟨rfl, rfl⟩, if_pos ⟨rfl, rfl⟩]

/-- `addPeriod` on a billing day with the year present. -/
theorem addPeriod_pos {yp : ℤ → Option FittedYear} {year : ℤ} {day : ℕ}
    {f : FittedYear} (hyp : yp year = some f) {pt : PeriodType}
    (hd : day % periodDays pt = 0) (acc : ℝ) :
    addPeriod yp year day acc pt =
      .ok (acc + 1000 * ((f pt).2.2 : ℝ) *
        calculate_retention_rate day (f pt).1 (f pt).2.1 pt) := by
  unfold addPeriod
  rw [if_pos hd, hyp]

/-- `addPeriod` off a billing day. -/
theorem addPeriod_neg {yp : ℤ → Option FittedYear} {year : ℤ} {day : ℕ}
    {pt : PeriodType} (hd : ¬ day % periodDays pt = 0) (acc : ℝ) :
    addPeriod yp year day acc pt = .ok acc := by
  unfold addPeriod
  rw [if_neg hd]

/-- `addPeriod` on a billing day with the year missing raises
`KeyError`. -/
theorem addPeriod_none {yp : ℤ → Option FittedYear} {year : ℤ} {day : ℕ}
    {pt : PeriodType} (hyp : yp year = none) (hd : day % periodDays pt = 0)
    (acc : ℝ) :
    addPeriod yp year day acc pt = .error .keyError := by
  unfold addPeriod
  rw [if_pos hd, hyp]

/-- When the activation year is present in the fitted dict, the
period fold computes the sum of contributions of the period types
whose cycle length divides the day offset. -/
theorem foldlM_addPeriod_ok {yp : ℤ → Option FittedYear} {year : ℤ}
    {day : ℕ} {f : FittedYear} (hyp : yp year = some f) :
    ∀ (l : List PeriodType) (r0 : ℝ),
      List.foldlM (addPeriod yp year day) r0 l =
        .ok (r0 + ((l.filter (fun pt => day % periodDays pt = 0)).map
          (fun pt => 1000 * ((f pt).2.2 : ℝ) *
            calculate_retention_rate day (f pt).1 (f pt).2.1 pt)).sum) := by
  intro l
  induction l with
  | nil =>
    intro r0
    rw [List.foldlM_nil]
    show Except.ok r0 = _
    simp
  | cons pt t ih =>
    intro r0
    rw [List.foldlM_cons]
    by_cases hd : day % periodDays pt = 0
    · rw [addPeriod_pos hyp hd, exc_ok_bind, ih,
        List.filter_cons_of_pos (by simp [hd]), List.map_cons, List.sum_cons]
      congr 1
      ring
    · rw [addPeriod_neg hd, exc_ok_bind, ih,
        List.filter_cons_of_neg (by simp [hd])]

/-- When the activation year is missing from the fitted dict and some
period type bills on this day, the fold raises `KeyError`. -/
theorem foldlM_addPeriod_err {yp : ℤ → Option FittedYear} {year : ℤ}
    {day : ℕ} (hyp : yp year = none) :
    ∀ (l : List PeriodType) (r0 : ℝ),
      (∃ pt ∈ l, day % periodDays pt = 0) →
      List.foldlM (addPeriod yp year day) r0 l = .error .keyError := by
  intro l
  induction l with
  | nil => simp
  | cons pt t ih =>
    intro r0 hex
    rw [List.foldlM_cons]
    by_cases hd : day % periodDays pt = 0
    · rw [addPeriod_none hyp hd, exc_error_bind]
    · rw [addPeriod_neg hd, exc_ok_bind]
      apply ih
      rcases hex with ⟨pt2, hmem, hdiv⟩
      rcases List.mem_cons.mp hmem with rfl | h2
      · exact absurd hdiv hd
      · exact ⟨pt2, h2, hdiv⟩

/-- `cellRevenue` in the successful case. -/
theorem cellRevenue_ok {yp : ℤ → Option FittedYear} {year : ℤ} {day : ℕ}
    {f : FittedYear} (hyp : yp year = some f) :
    cellRevenue yp year day =
      .ok (((periodList.filter (fun pt => day % periodDays pt = 0)).map
        (fun pt => 1000 * ((f pt).2.2 : ℝ) *
          calculate_retention_rate day (f pt).1 (f pt).2.1 pt)).sum) := by
  unfold cellRevenue
  rw [foldlM_addPeriod_ok hyp, zero_add]

/-- A cell outside the triangular region is `None`. -/
theorem cellExc_out {yp : ℤ → Option FittedYear} {s e d : ℤ} {day : ℕ}
    (h : ¬ (d - s + (day : ℤ) < e - s + 1)) :
    cellExc yp s e d day = .ok none := by
  unfold cellExc
  rw [if_neg h]

/-- A day-0 cell inside the region is the base revenue. -/
theorem cellExc_day0 {yp : ℤ → Option FittedYear} {s e d : ℤ}
    (h : d - s + ((0 : ℕ) : ℤ) < e - s + 1) :
    cellExc yp s e d 0 = .ok (some 1000) := by
  unfold cellExc
  rw [if_pos h, if_pos rfl]

/-- A positive-offset cell inside the region is the period fold. -/
theorem cellExc_pos {yp : ℤ → Option FittedYear} {s e d : ℤ} {day : ℕ}
    (h : d - s + (day : ℤ) < e - s + 1) (hday : day ≠ 0) :
    cellExc yp s e d day = (cellRevenue yp (yearOfDay d) day).map some := by
  unfold cellExc
  rw [if_pos h, if_neg hday]

/-- The cell function of the assembled DataFrame. -/
theorem mkDf_cell (au : ℕ) (s e : ℤ) (yp : ℤ → Option FittedYear)
    (d : ℤ) (day : ℕ) :
    (mkDf au s e yp).cell d day =
      (match cellExc yp s e d day with
       | .ok v => v
       | .error _ => none) := rfl

/-! ## Aggregation machinery -/

/-- `rowStep` when every requested column exists. -/
theorem rowStep_ok {df : RevDF} {year d : ℤ}
    (h : dec31 year - d + 1 ≤ (df.numDayCols : ℤ)) (racc : ℝ) :
    rowStep df year racc d = .ok (racc + rowSum df year d) := by
  unfold rowStep rowSum
  rw [if_neg (by omega)]

/-- `rowStep` when a column label is missing. -/
theorem rowStep_err {df : RevDF} {year d : ℤ}
    (h : (df.numDayCols : ℤ) < dec31 year - d + 1) (racc : ℝ) :
    rowStep df year racc d = .error .keyError := by
  unfold rowStep
  rw [if_pos h]

/-- The revenue accumulation over the masked rows, when all columns
exist, is the plain double sum. -/
theorem foldlM_rowStep_ok (df : RevDF) (year : ℤ) :
    ∀ l : List ℤ, (∀ d ∈ l, dec31 year - d + 1 ≤ (df.numDayCols : ℤ)) →
    ∀ r0 : ℝ, List.foldlM (rowStep df year) r0 l =
      .ok (r0 + (l.map (rowSum df year)).sum) := by
  intro l
  induction l with
  | nil =>
    intro _ r0
    rw [List.foldlM_nil]
    show Except.ok r0 = _
    simp
  | cons d t ih =>
    intro h r0
    rw [List.foldlM_cons, rowStep_ok (h d (List.mem_cons_self d t)),
      exc_ok_bind, ih (fun x hx => h x (List.mem_cons_of_mem d hx)),
      List.map_cons, List.sum_cons]
    congr 1
    ring

/-- Closed form of one iteration of the year loop, when every
requested column exists for the masked rows. -/
theorem aggYear_eq (df : RevDF) (sy : ℤ) (acc : List YearResult) (year : ℤ)
    (h : ∀ d ∈ rowsFor df year, dec31 year - d + 1 ≤ (df.numDayCols : ℤ)) :
    aggYear df sy acc year =
      if sy < year then
        match acc.find? (fun r => r.year = year - 1) with
        | none => Except.error PErr.keyError
        | some prev =>
            Except.ok
              (acc ++ [⟨year, rpdFor df year,
                some (pyGrowth (rpdFor df year) prev.RPD)⟩])
      else
        Except.ok (acc ++ [⟨year, rpdFor df year, none⟩]) := by
  unfold aggYear
  dsimp only
  rw [foldlM_rowStep_ok df year (rowsFor df year) h 0, exc_ok_bind, zero_add]
  rfl

/-- `find?` on the mapped year records of a consecutive range returns
the record of the sought year. -/
theorem find_recFor (df : RevDF) (sy t b : ℤ) (htb : t ≤ b) :
    ∀ n : ℕ, ∀ a : ℤ, (t - a).toNat = n → a ≤ t →
    ((rangeDays a b).map (recFor df sy)).find? (fun r => r.year = t) =
      some (recFor df sy t) := by
  intro n
  induction n with
  | zero =>
    intro a hn ha
    have hat : a = t := by omega
    subst hat
    rw [rangeDays_cons (le_trans (le_refl a) htb), List.map_cons,
      List.find?_cons_of_pos _ (by simp [recFor])]
  | succ n ih =>
    intro a hn ha
    have hat : a < t := by omega
    have hab : a ≤ b := by omega
    rw [rangeDays_cons hab, List.map_cons,
      List.find?_cons_of_neg _ (by simp [recFor]; omega)]
    exact ih (a + 1) (by omega) (by omega)

/-- Closed form of the whole year loop: when every requested column
exists for every year of the range, the aggregator succeeds and
returns exactly the list of per-year records in ascending year
order. -/
theorem calc_eq (df : RevDF) (sy : ℤ) :
    ∀ n : ℕ, ∀ ey : ℤ, (ey + 1 - sy).toNat = n →
    (∀ Y, sy ≤ Y → Y ≤ ey →
      ∀ d ∈ rowsFor df Y, dec31 Y - d + 1 ≤ (df.numDayCols : ℤ)) →
    calculate_yearly_rpd df sy ey =
      .ok ((rangeDays sy ey).map (recFor df sy)) := by
  intro n
  induction n with
  | zero =>
    intro ey hn _
    unfold calculate_yearly_rpd rangeDays
    have h0 : (ey - sy + 1).toNat = 0 := by omega
    rw [h0]
    simp only [List.range_zero, List.map_nil, List.foldlM_nil]
    rfl
  | succ n ih =>
    intro ey hn hH
    have hse : sy ≤ ey := by omega
    unfold calculate_yearly_rpd
    rw [rangeDays_snoc hse, List.foldlM_append]
    have h1 : calculate_yearly_rpd df sy (ey - 1) =
        .ok ((rangeDays sy (ey - 1)).map (recFor df sy)) :=
      ih (ey - 1) (by omega) (fun Y hY1 hY2 => hH Y hY1 (by omega))
    unfold calculate_yearly_rpd at h1
    simp only [List.foldlM_cons, List.foldlM_nil, bind_pure]
    rw [h1, exc_ok_bind, aggYear_eq df sy _ ey (hH ey hse le_rfl)]
    by_cases hlt : sy < ey
    · rw [if_pos hlt,
        find_recFor df sy (ey - 1) (ey - 1) le_rfl (ey - 1 - sy).toNat sy rfl
          (by omega)]
      dsimp only
      rw [List.map_append, List.map_cons, List.map_nil]
      have hrec : recFor df sy ey =
          { year := ey, RPD := rpdFor df ey,
            growth := some (pyGrowth (rpdFor df ey) (rpdFor df (ey - 1))) } := by
        unfold recFor
        rw [if_pos hlt]
      rw [hrec]
      rfl
    · rw [if_neg hlt]
      rw [List.map_append, List.map_cons, List.map_nil]
      have hrec : recFor df sy ey =
          { year := ey, RPD := rpdFor df ey, growth := none } := by
        unfold recFor
        rw [if_neg hlt]
      rw [hrec]

/-- Introduction rule for a successful `create_revenue_df` run. -/
theorem create_ok_intro {cf : CurveFitFn} {au : ℕ} {s e : ℤ}
    {yps : List (ℤ × YearInput)} {fitted : List (ℤ × FittedYear)}
    (hfit : fitYears cf yps = .ok fitted)
    (hcells : ((List.range (e - s + 1).toNat).forM
      (fun day => (rangeDays s e).forM
        (fun d => (cellExc (fun y => dlookup y fitted) s e d day).map
          (fun _ => ())))) = .ok ()) :
    create_revenue_df cf au s e yps =
      .ok (mkDf au s e (fun y => dlookup y fitted)) := by
  unfold create_revenue_df
  rw [hfit, exc_ok_bind, hcells, exc_ok_bind]

/-! ## Claim theorems -/

/-- Claim C3: for every activation date `d` in `[startDate, endDate]`
and every day-offset `day` in `0 .. (endDate - startDate)`, the
revenue-table cell at `(d, day)` is absent (`None`, not zero) if and
only if `d + day` exceeds `endDate`. -/
theorem C3_cell_absent_iff_beyond_end (cf : CurveFitFn) (au : ℕ) (s e : ℤ)
    (yps : List (ℤ × YearInput)) (df : RevDF) (d : ℤ) (day : ℕ)
    (hok : create_revenue_df cf au s e yps = .ok df)
    (hd1 : s ≤ d) (hd2 : d ≤ e) (hday : (day : ℤ) ≤ e - s) :
    (df.cell d day = none ↔ e < d + (day : ℤ)) := by
  obtain ⟨fitted, hfit, hcells, hdf⟩ := create_ok_elim hok
  subst hdf
  rw [mkDf_cell]
  by_cases hc : d - s + (day : ℤ) < e - s + 1
  · by_cases h0 : day = 0
    · subst h0
      rw [cellExc_day0 hc]
      constructor
      · intro hcontra
        exact absurd hcontra (by simp)
      · intro hcontra
        exfalso
        simp only [Nat.cast_zero] at hcontra
        omega
    · rw [cellExc_pos hc h0]
      have hday_mem : day ∈ List.range (e - s + 1).toNat := by
        rw [List.mem_range]
        omega
      have hd_mem : d ∈ rangeDays s e := mem_rangeDays.mpr ⟨hd1, hd2⟩
      have h1 := forM_ok_mem hcells day hday_mem
      have h2 := forM_ok_mem h1 d hd_mem
      rw [cellExc_pos hc h0] at h2
      cases hrev : cellRevenue (fun y => dlookup y fitted) (yearOfDay d) day with
      | error err =>
        rw [hrev] at h2
        exact absurd h2 (by simp [Except.map])
      | ok r =>
        rw [exc_ok_map]
        constructor
        · intro hcontra
          exact absurd hcontra (by simp)
        · intro hcontra
          exfalso
          omega
  · rw [cellExc_out hc]
    constructor
    · intro _
      omega
    · intro _
      rfl


/-- Claim C7: for every activation date within the range, the cell at
day-offset 0 equals the fixed base revenue 1000, independent of the
supplied retention parameters, fitted values and revenue-share weights
(the theorem quantifies over every optimiser and every parameter
table). -/
theorem C7_day0_base_revenue (cf : CurveFitFn) (au : ℕ) (s e : ℤ)
    (yps : List (ℤ × YearInput)) (df : RevDF) (d : ℤ)
    (hok : create_revenue_df cf au s e yps = .ok df)
    (hd1 : s ≤ d) (hd2 : d ≤ e) :
    df.cell d 0 = some 1000 := by
  obtain ⟨fitted, hfit, hcells, hdf⟩ := create_ok_elim hok
  subst hdf
  rw [mkDf_cell, cellExc_day0 (by simp only [Nat.cast_zero]; omega)]


/-- Witness for C3: a one-week 2024 range; at activation date
`startDate` and day-offset 7 (the last existing column) the cell is
present, matching `d + day ≤ endDate`. -/
theorem C3_cell_absent_iff_beyond_end_witness :
    create_revenue_df cfOne 5 jan1of2024 (jan1of2024 + 7) paramsStd =
      .ok (mkDf 5 jan1of2024 (jan1of2024 + 7)
        (fun y => dlookup y [(2024, FStd)])) ∧
    ((mkDf 5 jan1of2024 (jan1of2024 + 7)
        (fun y => dlookup y [(2024, FStd)])).cell jan1of2024 7 = none ↔
      jan1of2024 + 7 < jan1of2024 + ((7 : ℕ) : ℤ)) := by
  have hdf : create_revenue_df cfOne 5 jan1of2024 (jan1of2024 + 7) paramsStd =
      .ok (mkDf 5 jan1of2024 (jan1of2024 + 7)
        (fun y => dlookup y [(2024, FStd)])) :=
    create_ok_intro rfl rfl
  exact ⟨hdf,
    C3_cell_absent_iff_beyond_end cfOne 5 jan1of2024 (jan1of2024 + 7) paramsStd
      _ jan1of2024 7 hdf (le_refl _) (by decide) (by decide)⟩

/-- Witness for C7: a one-day range with an empty parameter table and a
never-converging optimiser still prices day 0 at the base revenue. -/
theorem C7_day0_base_revenue_witness :
    create_revenue_df cfDiverge 3 jan1of2024 jan1of2024 [] =
      .ok (mkDf 3 jan1of2024 jan1of2024
        (fun y => dlookup y ([] : List (ℤ × FittedYear)))) ∧
    (mkDf 3 jan1of2024 jan1of2024
      (fun y => dlookup y ([] : List (ℤ × FittedYear)))).cell jan1of2024 0 =
        some 1000 := by
  have hdf : create_revenue_df cfDiverge 3 jan1of2024 jan1of2024 [] =
      .ok (mkDf 3 jan1of2024 jan1of2024
        (fun y => dlookup y ([] : List (ℤ × FittedYear)))) :=
    create_ok_intro rfl rfl
  exact ⟨hdf,
    C7_day0_base_revenue cfDiverge 3 jan1of2024 jan1of2024 [] _ jan1of2024 hdf
      (le_refl _) (le_refl _)⟩

/-- Claim C4: an all-zero observation vector makes the fitter return
the `(0, 0)` sentinel for every optimiser (so no fit is attempted),
and the evaluator maps the sentinel to rate 0 at every day offset and
period type. -/
theorem C4_all_zero_sentinel (cf : CurveFitFn) (days rates : List ℚ)
    (hz : ∀ r ∈ rates, r = 0) :
    fit_revenue_parameters cf days rates = .ok (0, 0) ∧
    ∀ (d : ℕ) (pt : PeriodType), calculate_retention_rate d 0 0 pt = 0 := by
  constructor
  · unfold fit_revenue_parameters
    rw [if_pos]
    rw [List.all_eq_true]
    intro r hr
    rw [decide_eq_true_eq]
    exact hz r hr
  · intro d pt
    unfold calculate_retention_rate
    rw [if_pos ⟨rfl, rfl⟩]

/-- Witness for C4: rates `[0,0,0]` under a never-converging optimiser
still give the sentinel, and the sentinel evaluates to 0 at day 30 for
the month period. -/
theorem C4_all_zero_sentinel_witness :
    fit_revenue_parameters cfDiverge week_points [0, 0, 0] = .ok (0, 0) ∧
    calculate_retention_rate 30 0 0 PeriodType.month = 0 := by
  have h := C4_all_zero_sentinel cfDiverge week_points [0, 0, 0] (by decide)
  exact ⟨h.1, h.2 30 PeriodType.month⟩

/-- Claim C6: a not-all-zero observation vector containing a rate
`≤ 0` makes the fitter fail with an error (modelling
`np.log` producing a non-finite value that `curve_fit`'s
`check_finite` check rejects), and a non-convergent optimisation run
likewise surfaces as an error. -/
theorem C6_fit_error_propagation (cf : CurveFitFn) (days rates : List ℚ) :
    ((∃ r ∈ rates, r ≠ 0) → (∃ r ∈ rates, r ≤ 0) →
      fit_revenue_parameters cf days rates = .error .fitError) ∧
    ((∀ r ∈ rates, 0 < r) → rates ≠ [] →
      cf days (rates.map (fun r => Real.log (r : ℝ))) = .error () →
      fit_revenue_parameters cf days rates = .error .fitError) := by
  constructor
  · intro hnz hle
    unfold fit_revenue_parameters
    rw [if_neg, if_pos]
    · rw [List.any_eq_true]
      rcases hle with ⟨r, hr, hr0⟩
      exact ⟨r, hr, by rw [decide_eq_true_eq]; exact hr0⟩
    · rw [List.all_eq_true]
      intro hall
      rcases hnz with ⟨r, hr, hr0⟩
      exact hr0 (by have := hall r hr; rwa [decide_eq_true_eq] at this)
  · intro hpos hne hcf
    unfold fit_revenue_parameters
    rw [if_neg, if_neg, hcf]
    · rw [List.any_eq_true]
      rintro ⟨r, hr, hr0⟩
      rw [decide_eq_true_eq] at hr0
      exact absurd hr0 (not_le.mpr (hpos r hr))
    · rw [List.all_eq_true]
      intro hall
      rcases List.exists_mem_of_ne_nil rates hne with ⟨r, hr⟩
      have h1 := hall r hr
      rw [decide_eq_true_eq] at h1
      exact absurd (h1 ▸ hpos r hr) (lt_irrefl 0)

/-- Witness for C6: `[1, 0, 1]` (not all zero, contains 0) fails, and
all-positive `[1, 1, 1]` under a never-converging optimiser fails. -/
theorem C6_fit_error_propagation_witness :
    fit_revenue_parameters cfOne week_points [1, 0, 1] = .error .fitError ∧
    fit_revenue_parameters cfDiverge week_points [1, 1, 1] = .error .fitError := by
  constructor
  · exact (C6_fit_error_propagation cfOne week_points [1, 0, 1]).1
      ⟨1, by decide, by decide⟩ ⟨0, by decide, by decide⟩
  · exact (C6_fit_error_propagation cfDiverge week_points [1, 1, 1]).2
      (by decide) (by decide) rfl

/-- Claim C2: for a present cell with day-offset `day > 0`, the
revenue-table value is the sum, over exactly those period types whose
cycle length divides `day`, of `baseRevenue * revenueShareWeight *
evaluate(day / cycleLength, a, b)` with the spec's evaluator
`exp(ln a + b ln p)` (0 on the sentinel), taken at the activation
year's fitted parameters.  Period types whose cycle does not divide
`day` are filtered out, and several period types can contribute to the
same day.  The regularity hypothesis `hreg` confines the statement to
fitted parameters on which the float code is faithfully modelled by
real arithmetic (nonzero `a`, or the sentinel). -/
theorem C2_positive_day_cell_formula (cf : CurveFitFn) (au : ℕ) (s e : ℤ)
    (yps : List (ℤ × YearInput)) (df : RevDF)
    (fitted : List (ℤ × FittedYear)) (f : FittedYear) (d : ℤ) (day : ℕ)
    (hok : create_revenue_df cf au s e yps = .ok df)
    (hfit : fitYears cf yps = .ok fitted)
    (hf : dlookup (yearOfDay d) fitted = some f)
    (hd1 : s ≤ d) (hde : d + (day : ℤ) ≤ e) (hday : 0 < day)
    (hreg : ∀ pt, day % periodDays pt = 0 →
      (f pt).1 ≠ 0 ∨ ((f pt).1 = 0 ∧ (f pt).2.1 = 0)) :
    df.cell d day =
      some (((periodList.filter (fun pt => day % periodDays pt = 0)).map
        (fun pt => 1000 * ((f pt).2.2 : ℝ) *
          specEvaluate ((day : ℝ) / ((periodDays pt : ℕ) : ℝ))
            (f pt).1 (f pt).2.1)).sum) := by
  obtain ⟨fitted2, hfit2, hcells, hdf⟩ := create_ok_elim hok
  have hfe : fitted2 = fitted := by
    rw [hfit] at hfit2
    injection hfit2 with h
    exact h.symm
  subst hfe
  subst hdf
  rw [mkDf_cell, cellExc_pos (by omega) (by omega),
    cellRevenue_ok (show (fun y => dlookup y fitted2) (yearOfDay d) = some f
      from hf), exc_ok_map]
  dsimp only
  apply congrArg some
  apply congrArg List.sum
  apply List.map_congr_left
  intro pt hpt
  have hdvd : day % periodDays pt = 0 := by
    have hm := List.mem_filter.mp hpt
    simpa using hm.2
  rw [calc_retention_eq_spec day (f pt).1 (f pt).2.1 pt hday (hreg pt hdvd)]

/-- Witness for C2: the one-week 2024 range with parameters fitted to
`(1, -1)` and weight 1; day-offset 7 is a week-billing day. -/
theorem C2_positive_day_cell_formula_witness :
    create_revenue_df cfOne 5 jan1of2024 (jan1of2024 + 7) paramsStd =
      .ok (mkDf 5 jan1of2024 (jan1of2024 + 7)
        (fun y => dlookup y [(2024, FStd)])) ∧
    (mkDf 5 jan1of2024 (jan1of2024 + 7)
      (fun y => dlookup y [(2024, FStd)])).cell jan1of2024 7 =
      some (((periodList.filter (fun pt => 7 % periodDays pt = 0)).map
        (fun pt => 1000 * ((FStd pt).2.2 : ℝ) *
          specEvaluate (((7 : ℕ) : ℝ) / ((periodDays pt : ℕ) : ℝ))
            (FStd pt).1 (FStd pt).2.1)).sum) := by
  have hdf : create_revenue_df cfOne 5 jan1of2024 (jan1of2024 + 7) paramsStd =
      .ok (mkDf 5 jan1of2024 (jan1of2024 + 7)
        (fun y => dlookup y [(2024, FStd)])) :=
    create_ok_intro rfl rfl
  refine ⟨hdf, ?_⟩
  exact C2_positive_day_cell_formula cfOne 5 jan1of2024 (jan1of2024 + 7)
    paramsStd _ [(2024, FStd)] FStd jan1of2024 7 hdf rfl rfl (le_refl _)
    (by decide) (by decide)
    (by
      intro pt hpt
      left
      cases pt <;> simp [FStd])

/-- Bridge: a table built by `create_revenue_df`, aggregated over years
whose December 31 lies inside the table's date range, aggregates
without error into the per-year records. -/
theorem create_ok_calc (cf : CurveFitFn) (au : ℕ) (s e : ℤ)
    (yps : List (ℤ × YearInput)) (df : RevDF) (sy ey : ℤ)
    (hok : create_revenue_df cf au s e yps = .ok df)
    (hY : ∀ Y, sy ≤ Y → Y ≤ ey → dec31 Y ≤ e) :
    calculate_yearly_rpd df sy ey =
      .ok ((rangeDays sy ey).map (recFor df sy)) := by
  obtain ⟨fitted, hfit, hcells, hdf⟩ := create_ok_elim hok
  subst hdf
  apply calc_eq _ sy (ey + 1 - sy).toNat ey rfl
  intro Y h1 h2 d hd
  have hdd : d ∈ rangeDays s e := (List.mem_filter.mp hd).1
  have hmem := mem_rangeDays.mp hdd
  have hYe := hY Y h1 h2
  show dec31 Y - d + 1 ≤ ((e - s + 1).toNat : ℤ)
  omega

/-- Claim C1: for every year `Y` of the requested range, the
aggregator computes `RPD(Y)` as cumulative revenue divided by
cumulative users, where cumulative users is the sum of the per-date
activation counts over activation dates with `year(d) ≤ Y`, and
cumulative revenue sums, for each such date, the revenue-table cells
at day-offsets `0 .. (Dec-31-of-Y − d)` inclusive — revenue counted by
offset from activation regardless of the calendar year the offset's
date lands in.  The hypothesis `hY` keeps every requested column label
inside the table (as in the program's own usage, where the table ends
on December 31 of the last year). -/
theorem C1_rpd_cumulative_formula (cf : CurveFitFn) (au : ℕ) (s e : ℤ)
    (yps : List (ℤ × YearInput)) (df : RevDF) (sy ey : ℤ)
    (hok : create_revenue_df cf au s e yps = .ok df)
    (hY : ∀ Y, sy ≤ Y → Y ≤ ey → dec31 Y ≤ e) :
    ∃ out, calculate_yearly_rpd df sy ey = .ok out ∧
      ∀ Y, sy ≤ Y → Y ≤ ey → ∃ rec, rec ∈ out ∧ rec.year = Y ∧
        rec.RPD = pyDivVal
          (.num (((df.dates.filter (fun d => yearOfDay d ≤ Y)).map
            (fun d => ((List.range (dec31 Y - d + 1).toNat).map
              (fun i => (df.cell d i).getD 0)).sum)).sum))
          (.num ((((df.dates.filter (fun d => yearOfDay d ≤ Y)).map
            (fun _ => df.activeUsers)).sum : ℕ) : ℝ)) := by
  refine ⟨_, create_ok_calc cf au s e yps df sy ey hok hY, ?_⟩
  intro Y h1 h2
  exact ⟨recFor df sy Y,
    List.mem_map_of_mem _ (mem_rangeDays.mpr ⟨h1, h2⟩), rfl, rfl⟩

/-- Witness for C1: a single-date table on 2024-12-31 with five users
per day, aggregated over 2024 alone. -/
theorem C1_rpd_cumulative_formula_witness :
    ∃ out, calculate_yearly_rpd
        (mkDf 5 dec31of2024 dec31of2024
          (fun y => dlookup y ([] : List (ℤ × FittedYear)))) 2024 2024 =
      .ok out ∧
      ∀ Y, (2024 : ℤ) ≤ Y → Y ≤ 2024 → ∃ rec, rec ∈ out ∧ rec.year = Y ∧
        rec.RPD = pyDivVal
          (.num ((((mkDf 5 dec31of2024 dec31of2024
              (fun y => dlookup y ([] : List (ℤ × FittedYear)))).dates.filter
                (fun d => yearOfDay d ≤ Y)).map
            (fun d => ((List.range (dec31 Y - d + 1).toNat).map
              (fun i => ((mkDf 5 dec31of2024 dec31of2024
                (fun y => dlookup y ([] : List (ℤ × FittedYear)))).cell d i).getD 0)).sum)).sum))
          (.num (((((mkDf 5 dec31of2024 dec31of2024
              (fun y => dlookup y ([] : List (ℤ × FittedYear)))).dates.filter
                (fun d => yearOfDay d ≤ Y)).map
            (fun _ => (mkDf 5 dec31of2024 dec31of2024
              (fun y => dlookup y ([] : List (ℤ × FittedYear)))).activeUsers)).sum : ℕ) : ℝ)) := by
  have hdf : create_revenue_df cfDiverge 5 dec31of2024 dec31of2024 [] =
      .ok (mkDf 5 dec31of2024 dec31of2024
        (fun y => dlookup y ([] : List (ℤ × FittedYear)))) :=
    create_ok_intro rfl rfl
  refine C1_rpd_cumulative_formula cfDiverge 5 dec31of2024 dec31of2024 [] _
    2024 2024 hdf ?_
  intro Y h1 h2
  have h3 : Y = 2024 := by omega
  rw [h3]
  decide

/-- Claim C8: the aggregator's output is ordered ascending by year;
the growth-rate field is absent for the first year of the range; and
for every later year `Y` with finite nonzero RPDs it equals exactly
`(RPD(Y) / RPD(Y-1) - 1) * 100`. -/
theorem C8_growth_rate_formula (cf : CurveFitFn) (au : ℕ) (s e : ℤ)
    (yps : List (ℤ × YearInput)) (df : RevDF) (sy ey : ℤ)
    (hok : create_revenue_df cf au s e yps = .ok df)
    (hY : ∀ Y, sy ≤ Y → Y ≤ ey → dec31 Y ≤ e) :
    ∃ out, calculate_yearly_rpd df sy ey = .ok out ∧
      out.map (fun r => r.year) = rangeDays sy ey ∧
      (∀ rec ∈ out, rec.year = sy → rec.growth = none) ∧
      (∀ Y, sy < Y → Y ≤ ey →
        ∃ recY, recY ∈ out ∧ recY.year = Y ∧
        ∃ recP, recP ∈ out ∧ recP.year = Y - 1 ∧
        ∀ x y : ℝ, recY.RPD = .num x → recP.RPD = .num y → y ≠ 0 →
          recY.growth = some (.num ((x / y - 1) * 100))) := by
  refine ⟨_, create_ok_calc cf au s e yps df sy ey hok hY, ?_, ?_, ?_⟩
  · rw [List.map_map]
    have hcomp : ((fun r : YearResult => r.year) ∘ recFor df sy) =
        (fun Y : ℤ => Y) := funext fun Y => rfl
    rw [hcomp]
    exact List.map_id _
  · intro rec hrec hy
    rcases List.mem_map.mp hrec with ⟨Y, hYmem, rfl⟩
    have hYs : Y = sy := hy
    subst hYs
    unfold recFor
    dsimp only
    rw [if_neg (lt_irrefl Y)]
  · intro Y h1 h2
    refine ⟨recFor df sy Y,
      List.mem_map_of_mem _ (mem_rangeDays.mpr ⟨by omega, h2⟩), rfl,
      recFor df sy (Y - 1),
      List.mem_map_of_mem _ (mem_rangeDays.mpr ⟨by omega, by omega⟩), rfl, ?_⟩
    intro x y hx hyv hy0
    have hgr : (recFor df sy Y).growth =
        some (pyGrowth (rpdFor df Y) (rpdFor df (Y - 1))) := by
      unfold recFor
      dsimp only
      rw [if_pos h1]
    rw [hgr]
    have hx2 : rpdFor df Y = .num x := hx
    have hy2 : rpdFor df (Y - 1) = .num y := hyv
    rw [pyGrowth, hx2, hy2]
    have hdiv : pyDivVal (.num x) (.num y) = .num (x / y) := by
      unfold pyDivVal
      dsimp only
      rw [if_neg hy0]
    rw [hdiv]
    rfl

/-- Witness for C8: the single-date 2024 table aggregated over
2024..2024 (the first-year record carries no growth field). -/
theorem C8_growth_rate_formula_witness :
    ∃ out, calculate_yearly_rpd
        (mkDf 5 dec31of2024 dec31of2024
          (fun y => dlookup y ([] : List (ℤ × FittedYear)))) 2024 2024 =
      .ok out ∧
      out.map (fun r => r.year) = rangeDays 2024 2024 ∧
      (∀ rec ∈ out, rec.year = 2024 → rec.growth = none) ∧
      (∀ Y, (2024 : ℤ) < Y → Y ≤ 2024 →
        ∃ recY, recY ∈ out ∧ recY.year = Y ∧
        ∃ recP, recP ∈ out ∧ recP.year = Y - 1 ∧
        ∀ x y : ℝ, recY.RPD = .num x → recP.RPD = .num y → y ≠ 0 →
          recY.growth = some (.num ((x / y - 1) * 100))) := by
  have hdf : create_revenue_df cfOne 5 dec31of2024 dec31of2024 [] =
      .ok (mkDf 5 dec31of2024 dec31of2024
        (fun y => dlookup y ([] : List (ℤ × FittedYear)))) :=
    create_ok_intro rfl rfl
  refine C8_growth_rate_formula cfOne 5 dec31of2024 dec31of2024 [] _
    2024 2024 hdf ?_
  intro Y h1 h2
  have h3 : Y = 2024 := by omega
  rw [h3]
  decide

/-- Claim C5 (evaluation at the failing input): with a zero daily
activation count, cumulative users through 2024 are zero, yet the
aggregator returns normally with `RPD = +inf` — numpy float division
by an `int64` zero only emits a `RuntimeWarning` — instead of
propagating an error.  This contradicts the specification's
error-handling design ("propagate as an error rather than returning
infinity or null silently"). -/
theorem C5_zero_users_inf_not_error :
    ∃ df, create_revenue_df cfDiverge 0 dec31of2024 dec31of2024 [] = .ok df ∧
      calculate_yearly_rpd df 2024 2024 = .ok [⟨2024, PyVal.inf, none⟩] := by
  have hdf : create_revenue_df cfDiverge 0 dec31of2024 dec31of2024 [] =
      .ok dfZero := create_ok_intro rfl rfl
  refine ⟨dfZero, hdf, ?_⟩
  rw [create_ok_calc cfDiverge 0 dec31of2024 dec31of2024 [] dfZero 2024 2024
    hdf ?_]
  · have hr : rangeDays 2024 2024 = [2024] := by decide
    rw [hr, List.map_cons, List.map_nil]
    have hrows : rowsFor dfZero 2024 = [dec31of2024] := by decide
    have hcell : dfZero.cell dec31of2024 0 = some 1000 := by
      rw [show dfZero.cell = (mkDf 0 dec31of2024 dec31of2024
        (fun y => dlookup y ([] : List (ℤ × FittedYear)))).cell from rfl,
        mkDf_cell, cellExc_day0 (by decide)]
    have hrev : revFor dfZero 2024 = 1000 := by
      unfold revFor
      rw [hrows, List.map_cons, List.map_nil, List.sum_cons, List.sum_nil]
      unfold rowSum
      have h1 : (dec31 2024 - dec31of2024 + 1).toNat = 1 := by decide
      have h2 : List.range 1 = [0] := rfl
      rw [h1, h2, List.map_cons, List.map_nil, hcell]
      simp
    have husers : usersFor dfZero 2024 = 0 := by decide
    have hrpd : rpdFor dfZero 2024 = PyVal.inf := by
      unfold rpdFor
      rw [hrev, husers]
      simp only [pyDivVal]
      rw [if_pos (by norm_num), if_pos (by norm_num)]
    have hrec : recFor dfZero 2024 2024 = ⟨2024, PyVal.inf, none⟩ := by
      unfold recFor
      rw [if_neg (lt_irrefl (2024 : ℤ)), hrpd]
    rw [hrec]
  · intro Y h1 h2
    have h3 : Y = 2024 := by omega
    rw [h3]
    decide

/-- Counterexample to claim C9 as stated: for week checkpoints
`[1, 3, 7]` (day offsets 7, 21, 49) and observed rates
`[1/100, 1, 1/100]` — all within `(0, 1]` — NO parameter pair `(a, b)`
whatsoever (hence in particular none an optimiser could return) makes
fit-then-evaluate recover all three observations even to within a
tolerance of 1/4: a log-affine curve cannot be close to a non-monotone
observation vector, since three observations are fitted with only two
parameters. -/
theorem C9_roundtrip_counterexample :
    ¬ ∃ a b : ℝ,
      |calculate_retention_rate 7 a b PeriodType.week - 1/100| ≤ 1/4 ∧
      |calculate_retention_rate 21 a b PeriodType.week - 1| ≤ 1/4 ∧
      |calculate_retention_rate 49 a b PeriodType.week - 1/100| ≤ 1/4 := by
  rintro ⟨a, b, h1, h2, h3⟩
  by_cases hs : a = 0 ∧ b = 0
  · unfold calculate_retention_rate at h2
    rw [if_pos hs] at h2
    rw [abs_le] at h2
    linarith [h2.2]
  · have q1 : (((7 : ℕ) : ℝ)) / ((periodDays PeriodType.week : ℕ) : ℝ) = 1 := by
      norm_num [periodDays]
    have q3 : (((21 : ℕ) : ℝ)) / ((periodDays PeriodType.week : ℕ) : ℝ) = 3 := by
      norm_num [periodDays]
    have q7 : (((49 : ℕ) : ℝ)) / ((periodDays PeriodType.week : ℕ) : ℝ) = 7 := by
      norm_num [periodDays]
    rw [calc_retention_unfold 7 a b _ hs, q1] at h1
    rw [calc_retention_unfold 21 a b _ hs, q3] at h2
    rw [calc_retention_unfold 49 a b _ hs, q7] at h3
    unfold log_power_function at h1 h2 h3
    by_cases ha : a = 0
    · rw [ha, zero_mul, Real.log_zero, Real.exp_zero] at h1
      rw [abs_le] at h1
      linarith [h1.2]
    · rw [show Real.exp (Real.log (a * (1 : ℝ) ^ b)) = Real.exp (Real.log a) by
        rw [Real.one_rpow, mul_one]] at h1
      rw [exp_log_pow_eq a b 3 ha (by norm_num)] at h2
      rw [exp_log_pow_eq a b 7 ha (by norm_num)] at h3
      have hc : Real.exp (Real.log a) ≤ 26 / 100 := by
        have := (abs_le.mp h1).2
        linarith
      have h7c : Real.exp (Real.log a + b * Real.log 7) ≤ 26 / 100 := by
        have := (abs_le.mp h3).2
        linarith
      have h3c : (3 : ℝ) / 4 ≤ Real.exp (Real.log a + b * Real.log 3) := by
        have := (abs_le.mp h2).1
        linarith
      rcases le_or_lt 0 b with hb | hb
      · have hlog : Real.log 3 ≤ Real.log 7 :=
          Real.log_le_log (by norm_num) (by norm_num)
        have hmono : Real.exp (Real.log a + b * Real.log 3) ≤
            Real.exp (Real.log a + b * Real.log 7) :=
          Real.exp_le_exp.mpr (by nlinarith)
        linarith
      · have hlog3 : 0 ≤ Real.log 3 := Real.log_nonneg (by norm_num)
        have hmono : Real.exp (Real.log a + b * Real.log 3) ≤
            Real.exp (Real.log a) :=
          Real.exp_le_exp.mpr (by nlinarith)
        linarith

/-- Claim C9 amended: fit-then-evaluate recovers an observed rate
exactly at every checkpoint where the fitted parameters have zero
residual in log space (off the sentinel); recovery at all checkpoints
of an arbitrary rate vector in `(0, 1]` is impossible in general,
because three observations are fitted with two parameters (see the
counterexample). -/
theorem C9_zero_residual_roundtrip (a b r : ℝ) (days : ℕ) (pt : PeriodType)
    (hs : ¬ (a = 0 ∧ b = 0)) (hr : 0 < r)
    (hres : log_power_function ((days : ℝ) / ((periodDays pt : ℕ) : ℝ)) a b =
      Real.log r) :
    calculate_retention_rate days a b pt = r := by
  rw [calc_retention_unfold days a b pt hs, hres, Real.exp_log hr]

/-- Witness for the amended C9: parameters `(1, 0)` have zero residual
against the constant observation 1 at week checkpoint 1 (day 7), and
evaluation returns exactly 1. -/
theorem C9_zero_residual_roundtrip_witness :
    calculate_retention_rate 7 1 0 PeriodType.week = 1 := by
  refine C9_zero_residual_roundtrip 1 0 1 7 PeriodType.week (by norm_num)
    (by norm_num) ?_
  unfold log_power_function
  rw [Real.rpow_zero, mul_one, Real.log_one]

/-- A successful dict lookup exhibits a member of the association
list. -/
theorem dlookup_mem {α : Type} {y : ℤ} {v : α} :
    ∀ {l : List (ℤ × α)}, dlookup y l = some v → (y, v) ∈ l := by
  intro l
  induction l with
  | nil => intro h; exact absurd h (by simp [dlookup])
  | cons p rest ih =>
    intro h
    unfold dlookup at h
    by_cases hy : y = p.1
    · rw [if_pos hy] at h
      injection h with h2
      subst hy
      subst h2
      exact List.mem_cons_self _ _
    · rw [if_neg hy] at h
      exact List.mem_cons_of_mem p (ih h)

/-- Claim C10 amended: (only-if) when `create_revenue_df` returns a
table, `yearly_params` has an entry, with all four period keys, for
the activation year of every date whose first billing day of some
period type still falls inside the range (`d + cycle ≤ endDate` —
dates too close to the end never trigger a lookup, which is what the
counterexample exhibits); and (sufficiency, strengthened) when every
entry present in `yearly_params` — for touched years or not — carries
all four period keys and every activation date's year has an entry,
no lookup error occurs (fitting errors remain possible). -/
theorem C10_lookup_totality (cf : CurveFitFn) (au : ℕ) (s e : ℤ)
    (yps : List (ℤ × YearInput)) :
    (∀ df, create_revenue_df cf au s e yps = .ok df →
      ∀ d ∈ rangeDays s e, ∀ pt : PeriodType, d + (periodDays pt : ℤ) ≤ e →
        ∃ entry, dlookup (yearOfDay d) yps = some entry ∧
          ∀ pt2 : PeriodType, (entry pt2).isSome) ∧
    ((∀ p ∈ yps, ∀ pt : PeriodType, (p.2 pt).isSome) →
      (∀ d ∈ rangeDays s e, (dlookup (yearOfDay d) yps).isSome) →
      create_revenue_df cf au s e yps ≠ .error .keyError) := by
  constructor
  · intro df hok d hd pt hpt
    obtain ⟨fitted, hfit, hcells, hdf⟩ := create_ok_elim hok
    have hday_pos : 0 < periodDays pt := by cases pt <;> norm_num [periodDays]
    have hmem := mem_rangeDays.mp hd
    have hday_mem : periodDays pt ∈ List.range (e - s + 1).toNat := by
      rw [List.mem_range]
      omega
    have h1 := forM_ok_mem hcells (periodDays pt) hday_mem
    have h2 := forM_ok_mem h1 d hd
    rw [cellExc_pos (by omega) (by omega)] at h2
    cases hlf : dlookup (yearOfDay d) fitted with
    | none =>
      exfalso
      have herr := @foldlM_addPeriod_err (fun y => dlookup y fitted)
        (yearOfDay d) (periodDays pt) hlf
        periodList 0 ⟨pt, by cases pt <;> simp [periodList], Nat.mod_self _⟩
      unfold cellRevenue at h2
      rw [herr] at h2
      exact absurd h2 (by simp [Except.map])
    | some f =>
      have hsome : (dlookup (yearOfDay d) yps).isSome := by
        rw [← fitYears_ok_lookup hfit]
        simp [hlf]
      cases hyy : dlookup (yearOfDay d) yps with
      | none => rw [hyy] at hsome; exact absurd hsome (by simp)
      | some entry =>
        refine ⟨entry, rfl, ?_⟩
        intro pt2
        exact fitYears_ok_entries hfit _ (dlookup_mem hyy) pt2
  · intro hall hkeys
    unfold create_revenue_df
    cases hfit : fitYears cf yps with
    | error err =>
      rw [exc_error_bind]
      intro hc
      have herr : err = .keyError := by injection hc
      exact fitYears_ne_keyError hall (herr ▸ hfit)
    | ok fitted =>
      rw [exc_ok_bind]
      have hcells : ((List.range (e - s + 1).toNat).forM
          (fun day => (rangeDays s e).forM
            (fun d => (cellExc (fun y => dlookup y fitted) s e d day).map
              (fun _ => ())))) = .ok () := by
        apply forM_ok_all
        intro day _
        apply forM_ok_all
        intro d hd
        by_cases hc : d - s + (day : ℤ) < e - s + 1
        · by_cases h0 : day = 0
          · subst h0
            rw [cellExc_day0 hc]
            rfl
          · rw [cellExc_pos hc h0]
            have hl : (dlookup (yearOfDay d) yps).isSome := hkeys d hd
            have hlf : (dlookup (yearOfDay d) fitted).isSome := by
              rw [fitYears_ok_lookup hfit]
              exact hl
            cases hf2 : dlookup (yearOfDay d) fitted with
            | none => rw [hf2] at hlf; exact absurd hlf (by simp)
            | some f =>
              rw [cellRevenue_ok
                (show (fun y => dlookup y fitted) (yearOfDay d) = some f
                  from hf2)]
              rfl
        · rw [cellExc_out hc]
          rfl
      rw [hcells, exc_ok_bind]
      simp

/-- Counterexample to claim C10 as stated: a three-day 2024 range with
an EMPTY `yearly_params` still returns a table — day-offsets 1 and 2
are no period's billing day, so `year_params[2024]` is never looked
up — even though the touched year 2024 has no entry at all.  The
claim's "returns a table only if yearly_params contains an entry for
every calendar year touched by an activation date" is therefore
false. -/
theorem C10_totality_counterexample :
    (∃ df, create_revenue_df cfDiverge 1000 jan1of2024 (jan1of2024 + 2) [] =
      .ok df) ∧
    jan1of2024 ∈ rangeDays jan1of2024 (jan1of2024 + 2) ∧
    dlookup (yearOfDay jan1of2024) ([] : List (ℤ × YearInput)) = none := by
  refine ⟨⟨_, create_ok_intro rfl rfl⟩, by decide, rfl⟩

/-- Witness for the amended C10: a complete one-year parameter table
over a single 2024 date never produces a lookup error. -/
theorem C10_lookup_totality_witness :
    create_revenue_df cfOne 7 jan1of2024 jan1of2024 paramsStd ≠
      .error .keyError := by
  refine (C10_lookup_totality cfOne 7 jan1of2024 jan1of2024 paramsStd).2 ?_ ?_
  · intro p hp pt
    have hp2 : p = (2024, fun _ => some ([1, 1, 1], 1)) := by
      simpa [paramsStd] using hp
    rw [hp2]
    rfl
  · intro d hd
    have hd2 : d = jan1of2024 := by
      have := mem_rangeDays.mp hd
      omega
    rw [hd2]
    rfl
